import Mathlib

/-!
Verification of the journal bot orchestration layer (src/bot.py) against its
natural-language specification.  The Python source is shallowly embedded:

* the audit log file is a list of lines, each line represented by its JSON
  parse outcome (`some entry` for a well-formed line, `none` for a malformed
  one, standing for a `json.loads` that raises);
* timestamps and durations are integers (abstract ticks); the Python dicts
  `user_sessions` and `tracked_messages` are association lists keyed the same
  way, with dict assignment and deletion modelled by cons-after-remove and
  filter, which preserve lookup semantics and key uniqueness;
* subprocess invocations are values of an outcome type (`ok` with exit code,
  stdout and stderr, `timeout`, or a raised exception), supplied as inputs;
* chat-facing warning messages are recorded as tagged values rather than
  formatted strings, keeping the payload the source embeds in each message.
-/

/-! ## Audit log (bot.py lines 103-117, `get_recent_audit_entries`) -/

/-- Python slice `l[i:]` on a list, for any integer index `i`: a nonnegative
start drops that many elements, a negative start counts from the end and is
clamped at the head of the list. -/
def pySliceFrom {α : Type} (l : List α) (i : Int) : List α :=
  if 0 ≤ i then l.drop i.toNat
  else l.drop (Int.toNat ((l.length : Int) + i))

/-- The list comprehension `[json.loads(line) for line in recent]`: runs the
per-line parses in order and raises (returns `none`) at the first malformed
line. -/
def seqOptions {α : Type} : List (Option α) → Option (List α)
  | [] => some []
  | none :: _ => none
  | some a :: rest => (seqOptions rest).map fun l => a :: l

/-- The selected window of lines, from bot.py line 113:
`recent = lines[-count:] if len(lines) >= count else lines`. -/
def audit_window {α : Type} (lines : List (Option α)) (count : Int) : List (Option α) :=
  if (lines.length : Int) ≥ count then pySliceFrom lines (-count) else lines

/-- Embedding of `get_recent_audit_entries` (bot.py lines 103-117) on an
existing log file.  The `try` body parses every line of the window; the
`except` clause turns any parse failure into an empty result. -/
def get_recent_audit_entries {α : Type} (lines : List (Option α)) (count : Int) : List α :=
  match seqOptions (audit_window lines count) with
  | some entries => entries
  | none => []

/-! ## Session store (bot.py lines 126-155) -/

/-- One stored session: the dict value
`{"session_id": str, "last_active": datetime}`. -/
structure SessionData where
  session_id : String
  last_active : Int
deriving DecidableEq, Repr

/-- The `user_sessions` dict, keyed by user id. -/
abbrev SessionMap := List (Int × SessionData)

/-- Embedding of `get_active_session` (bot.py lines 126-147).  Returns the
looked-up token (or `none`) together with the session map after the call,
since an expired session is deleted as a side effect of the read. -/
def get_active_session (enabled : Bool) (expiry : Int) (now : Int)
    (sessions : SessionMap) (user_id : Int) : Option String × SessionMap :=
  if enabled = false then (none, sessions)
  else
    match sessions.lookup user_id with
    | none => (none, sessions)
    | some s =>
      if now > s.last_active + expiry then
        (none, sessions.filter fun p => decide (p.1 ≠ user_id))
      else
        (some s.session_id, sessions)

/-- Embedding of `update_session` (bot.py lines 149-155): dict assignment
`user_sessions[user_id] = ...`, an unconditional overwrite with
`last_active = now`. -/
def update_session (sessions : SessionMap) (user_id : Int) (session_id : String)
    (now : Int) : SessionMap :=
  (user_id, SessionData.mk session_id now) :: sessions.filter fun p => decide (p.1 ≠ user_id)

/-! ## Sync orchestrator (bot.py lines 263-329, `sync_repo`) -/

/-- Result of one `subprocess.run` invocation: a completed process with exit
code, captured stdout and stderr; a `subprocess.TimeoutExpired`; or any other
raised exception carrying its message. -/
inductive RunOutcome where
  | ok (returncode : Int) (stdout : String) (stderr : String)
  | timeout
  | exn (msg : String)
deriving DecidableEq, Repr

/-- One message handed to the `send_warning` capability (bot.py lines
275-279), tagged by which branch of `sync_repo` produced it and carrying the
payload that branch embeds in the message text. -/
inductive Warning where
  | scriptFail (detail : String)
  | scriptTimeout
  | scriptError (msg : String)
  | pullFail (stderr : String)
  | gitError (msg : String)
deriving DecidableEq, Repr

/-- The observable outcome of `sync_repo`: the returned boolean, the warnings
passed to `send_warning` in order, and whether the git-pull fallback was
reached. -/
structure SyncOutcome where
  succeeded : Bool
  warnings : List Warning
  pullInvoked : Bool
deriving DecidableEq, Repr

/-- Python substring test `needle in hay` on character lists. -/
def containsSub (needle : List Char) : List Char → Bool
  | [] => needle.isPrefixOf []
  | c :: rest => needle.isPrefixOf (c :: rest) || containsSub needle rest

/-- The stdout marker `"Already up to date"` checked by the fallback
(bot.py line 323). -/
def upToDateMarker : List Char := "Already up to date".toList

/-- Python `str.strip()`: drop whitespace from both ends. -/
def pyStripChars (cs : List Char) : List Char :=
  ((cs.dropWhile Char.isWhitespace).reverse.dropWhile Char.isWhitespace).reverse

/-- The git-pull fallback, bot.py lines 312-329.  `ws` carries the warnings
already surfaced by the script phase.  A completed pull returns true; the
pull warning is sent exactly when the exit code is nonzero and stdout lacks
the up-to-date marker.  A raised exception (including a timeout) surfaces a
git error and returns false. -/
def git_pull_fallback (ws : List Warning) (pull : RunOutcome) : SyncOutcome :=
  match pull with
  | RunOutcome.ok rc out err =>
    if rc ≠ 0 ∧ containsSub upToDateMarker out.toList = false then
      SyncOutcome.mk true (ws ++ [Warning.pullFail err]) true
    else
      SyncOutcome.mk true ws true
  | RunOutcome.timeout =>
    SyncOutcome.mk false (ws ++ [Warning.gitError "TimeoutExpired"]) true
  | RunOutcome.exn e =>
    SyncOutcome.mk false (ws ++ [Warning.gitError e]) true

/-- Embedding of `sync_repo` (bot.py lines 263-329).  `scriptOk` is the check
`os.path.exists(JOURNAL_SYNC_SCRIPT) and os.access(..., os.X_OK)`; `script`
and `pull` are the outcomes of the two subprocess invocations (the latter is
only consulted when the fallback runs). -/
def sync_repo (scriptOk : Bool) (script : RunOutcome) (pull : RunOutcome) : SyncOutcome :=
  if scriptOk then
    match script with
    | RunOutcome.ok rc _ err =>
      if rc = 0 then SyncOutcome.mk true [] false
      else git_pull_fallback [Warning.scriptFail ((pyStripChars err.toList).take 200).asString] pull
    | RunOutcome.timeout => git_pull_fallback [Warning.scriptTimeout] pull
    | RunOutcome.exn e => git_pull_fallback [Warning.scriptError e] pull
  else
    git_pull_fallback [] pull

/-- True on the pull-phase warning constructor only. -/
def isPullWarning : Warning → Bool
  | Warning.pullFail _ => true
  | _ => false

/-- True on the git-error warning constructor only. -/
def isGitError : Warning → Bool
  | Warning.gitError _ => true
  | _ => false

/-- The boolean a completed fallback alone would produce: true unless the
pull invocation raised. -/
def fallback_bool : RunOutcome → Bool
  | RunOutcome.ok _ _ _ => true
  | RunOutcome.timeout => false
  | RunOutcome.exn _ => false

/-! ## Message tracker retention sweep (bot.py lines 158-203) -/

/-- Embedding of one pass of the retention sweep in `delete_old_messages`
(bot.py lines 167-185).  `tracked` is the `tracked_messages` dict as an
association list from `(chat_id, message_id)` to posting timestamp, and
`deleter` is the `application.bot.delete_message` capability, reporting true
for a successful remote deletion and false for a raised exception.  The pass
first collects every key whose timestamp is strictly older than the cutoff,
then for each collected key invokes the deleter and removes the key from
tracking on both the success and the exception branch.  Returns the tracking
map after the pass and the deletion calls made, in order, each paired with
the outcome the capability reported. -/
def delete_old_messages_sweep (retention now : Int) (deleter : Int × Int → Bool)
    (tracked : List ((Int × Int) × Int)) :
    List ((Int × Int) × Int) × List ((Int × Int) × Bool) :=
  let cutoff := now - retention
  let messages_to_delete := (tracked.filter fun p => decide (p.2 < cutoff)).map fun p => p.1
  let calls := messages_to_delete.map fun k => (k, deleter k)
  let remaining := messages_to_delete.foldl
    (fun st k => st.filter fun p => decide (p.1 ≠ k)) tracked
  (remaining, calls)

/-- Occurrence count in a list, written directly so that statements about it
do not depend on instance resolution details. -/
def countOcc {α : Type} [DecidableEq α] (a : α) : List α → Nat
  | [] => 0
  | b :: rest => (if b = a then 1 else 0) + countOcc a rest

/-! ## Query pipeline (bot.py lines 434-565, `handle_message`) -/

/-- Outcome of the `claude` subprocess in `handle_message`: decoded, stripped
stdout and stderr plus the exit code. -/
structure ToolRun where
  raw_output : String
  stderr_output : String
  returncode : Int
deriving DecidableEq, Repr

/-- The fields `handle_message` reads from a successfully parsed JSON
response: the session key and the result key, each absent when the key is
missing from the object.  A failed `json.loads` is `none` at the use site. -/
structure ParsedJson where
  session_id : Option String
  result : Option String
deriving DecidableEq, Repr

/-- The QUERY audit entry emitted at bot.py lines 542-548, restricted to the
data-carrying fields; the wall-clock timestamp and the elapsed time are left
out of the model. -/
structure QueryAudit where
  event : String
  query : String
  query_length : Nat
  response_length : Nat
  status : String
  exit_code : Int
deriving DecidableEq, Repr

/-- Everything observable from one pass of the query path: the command line
used, the final reply text, the audit entry, and the session map after. -/
structure QueryOutcome where
  cmd : List String
  output : String
  audit : QueryAudit
  sessions : SessionMap
deriving DecidableEq, Repr

/-- Command construction, bot.py lines 466-477. -/
def build_claude_cmd (sessionEnabled : Bool) (active : Option String)
    (user_query : String) : List String :=
  if sessionEnabled then
    match active with
    | some sid =>
      ["claude", "--resume", sid, user_query, "--output-format", "json",
        "--dangerously-skip-permissions"]
    | none =>
      ["claude", "-p", user_query, "--output-format", "json",
        "--dangerously-skip-permissions"]
  else
    ["claude", "-p", user_query, "--dangerously-skip-permissions"]

/-- Truncation for the transport size limit, bot.py lines 528-529. -/
def truncate_for_telegram (output : String) : String :=
  if output.length > 3900 then output.take 3900 ++ "\n...(truncated)" else output

/-- Embedding of the query path of `handle_message` (bot.py lines 458-548) on
the run where the subprocess completes and no exception is raised: session
lookup, command construction, response parsing with session update, empty
response substitution, truncation, and the QUERY audit entry.  `parsed` is
the outcome of `json.loads` on the raw output, consulted only when sessions
are enabled, and an empty session id string is falsy like `None` in the
`if session_id:` test. -/
def handle_message_core (sessionEnabled : Bool) (expiry now : Int)
    (sessions : SessionMap) (user_id : Int) (user_query : String)
    (run : ToolRun) (parsed : Option ParsedJson) : QueryOutcome :=
  let looked := get_active_session sessionEnabled expiry now sessions user_id
  let cmd := build_claude_cmd sessionEnabled looked.1 user_query
  let step4 : String × SessionMap :=
    if sessionEnabled then
      match parsed with
      | some pj =>
        let output := pj.result.getD run.raw_output
        match pj.session_id with
        | some sid =>
          if sid = "" then (output, looked.2)
          else (output, update_session looked.2 user_id sid now)
        | none => (output, looked.2)
      | none => (run.raw_output, looked.2)
    else (run.raw_output, looked.2)
  let output1 :=
    if step4.1 = "" then
      (if run.stderr_output = "" then "Empty response from Claude." else run.stderr_output)
    else step4.1
  let output2 := truncate_for_telegram output1
  QueryOutcome.mk cmd output2
    (QueryAudit.mk "QUERY" user_query user_query.length output2.length "success" run.returncode)
    step4.2

/-! ## Sync mode configuration parsing (bot.py lines 37-48) -/

/-- Python `str.lower` on one ASCII character. -/
def pyLowerChar (c : Char) : Char :=
  if 65 ≤ c.toNat ∧ c.toNat ≤ 90 then Char.ofNat (c.toNat + 32) else c

/-- Python `str.lower` over the characters of the configuration value. -/
def pyLower (cs : List Char) : List Char := cs.map pyLowerChar

/-- The whitespace characters `int` discards around a numeral. -/
def pyIsSpace (c : Char) : Bool :=
  decide (c = ' ' ∨ c = '\t' ∨ c = '\n' ∨ c = '\r' ∨ c = '\x0b' ∨ c = '\x0c')

/-- ASCII decimal digit test. -/
def pyIsDigit (c : Char) : Bool :=
  decide (48 ≤ c.toNat ∧ c.toNat ≤ 57)

/-- Accumulating base-10 value of a digit run for `int`. -/
def digitsValAux (acc : Nat) : List Char → Option Nat
  | [] => some acc
  | c :: rest =>
    if pyIsDigit c then digitsValAux (acc * 10 + (c.toNat - 48)) rest else none

/-- Value of a nonempty all-digit run, `none` otherwise. -/
def digitsVal : List Char → Option Nat
  | [] => none
  | c :: rest => digitsValAux 0 (c :: rest)

/-- Surrounding whitespace removal performed by `int`. -/
def pyStripSpace (cs : List Char) : List Char :=
  ((cs.dropWhile pyIsSpace).reverse.dropWhile pyIsSpace).reverse

/-- Sign and digit-run handling of `int` after whitespace removal. -/
def pyIntCore : List Char → Option Int
  | [] => none
  | c :: rest =>
    if c = '-' then (digitsVal rest).map fun n => -(n : Int)
    else if c = '+' then (digitsVal rest).map fun n => (n : Int)
    else (digitsVal (c :: rest)).map fun n => (n : Int)

/-- Python `int(s)` on an ASCII string: optional surrounding whitespace, an
optional sign, then a nonempty digit run; anything else raises `ValueError`,
giving `none`. -/
def pyInt? (cs : List Char) : Option Int :=
  pyIntCore (pyStripSpace cs)

/-- Embedding of the JOURNAL_SYNC_MODE configuration parse (bot.py lines
38-48), producing the pair (JOURNAL_SYNC_MODE, JOURNAL_SYNC_INTERVAL): the
code lowercases the value before comparing with the auto literal, and treats
an unparseable interval as auto mode. -/
def parse_sync_mode (raw : List Char) : String × Option Int :=
  if pyLower raw = "auto".toList then ("auto", none)
  else
    match pyInt? raw with
    | some n => ("timer", some n)
    | none => ("auto", none)

/-- Modelled from the words of the spec, for comparison with
`parse_sync_mode`: the literal value auto selects eager mode; any other value
is parsed as an integer count of minutes selecting interval mode; a value
that fails integer parsing silently defaults to eager mode with no interval
set. -/
def spec_sync_mode (raw : List Char) : String × Option Int :=
  if raw = "auto".toList then ("auto", none)
  else
    match pyInt? raw with
    | some n => ("timer", some n)
    | none => ("auto", none)

/-! ## Helper lemmas -/

theorem countOcc_eq_zero {α : Type} [DecidableEq α] (a : α) (l : List α) (h : a ∉ l) :
    countOcc a l = 0 := by
  induction l with
  | nil => rfl
  | cons b rest ih =>
    have hba : b ≠ a := fun hb => h (hb ▸ List.mem_cons_self b rest)
    simp only [countOcc, if_neg hba, ih (fun hr => h (List.mem_cons_of_mem b hr))]

theorem mem_keys_of_mem_filter_keys {α β : Type} (pred : α × β → Bool)
    (l : List (α × β)) (a : α) (h : a ∈ (l.filter pred).map fun p => p.1) :
    a ∈ l.map fun p => p.1 := by
  rcases List.mem_map.mp h with ⟨p, hpf, hp1⟩
  exact List.mem_map.mpr ⟨p, (List.mem_filter.mp hpf).1, hp1⟩

theorem countOcc_filter_keys_eq_one {α β : Type} [DecidableEq α]
    (pred : α × β → Bool) (l : List (α × β)) (key : α) (ts : β)
    (hnodup : (l.map fun p => p.1).Nodup) (hmem : (key, ts) ∈ l)
    (hpred : pred (key, ts) = true) :
    countOcc key ((l.filter pred).map fun p => p.1) = 1 := by
  induction l with
  | nil => cases hmem
  | cons p rest ih =>
    rw [List.map_cons, List.nodup_cons] at hnodup
    rcases List.mem_cons.mp hmem with heq | hrest
    · subst heq
      rw [List.filter_cons, if_pos hpred, List.map_cons]
      have h0 : countOcc key ((rest.filter pred).map fun q => q.1) = 0 := by
        apply countOcc_eq_zero
        intro hk
        exact hnodup.1 (mem_keys_of_mem_filter_keys pred rest key hk)
      simp [countOcc, h0]
    · have hne : p.1 ≠ key := by
        intro hpk
        exact hnodup.1 (hpk ▸ List.mem_map.mpr ⟨(key, ts), hrest, rfl⟩)
      rw [List.filter_cons]
      by_cases hp : pred p = true
      · rw [if_pos hp, List.map_cons]
        simp only [countOcc, if_neg hne, ih hnodup.2 hrest]
      · rw [if_neg hp]
        exact ih hnodup.2 hrest

theorem mem_sweep_foldl {α β : Type} [DecidableEq α] (ks : List α)
    (init : List (α × β)) (x : α × β) :
    x ∈ ks.foldl (fun st k => st.filter fun p => decide (p.1 ≠ k)) init
      ↔ x ∈ init ∧ x.1 ∉ ks := by
  induction ks generalizing init with
  | nil => simp
  | cons k rest ih =>
    rw [List.foldl_cons, ih]
    simp only [List.mem_filter, List.mem_cons, not_or, decide_eq_true_eq]
    tauto

theorem seqOptions_map_some {α : Type} (entries : List α) :
    seqOptions (entries.map some) = some entries := by
  induction entries with
  | nil => rfl
  | cons a rest ih => simp [seqOptions, ih]

theorem seqOptions_of_none_mem {α : Type} (l : List (Option α)) (h : none ∈ l) :
    seqOptions l = none := by
  induction l with
  | nil => cases h
  | cons o rest ih =>
    cases o with
    | none => rfl
    | some a =>
      rcases List.mem_cons.mp h with h1 | h2
      · cases h1
      · simp [seqOptions, ih h2]

theorem pySliceFrom_neg {α : Type} (l : List α) (k : Nat) (hk : 1 ≤ k) :
    pySliceFrom l (-(k : Int)) = l.drop (l.length - k) := by
  unfold pySliceFrom
  rw [if_neg (by omega)]
  congr 1
  omega

theorem lookup_filter_ne {α : Type} (l : List (Int × α)) (k : Int) :
    (l.filter fun p => decide (p.1 ≠ k)).lookup k = none := by
  induction l with
  | nil => rfl
  | cons p rest ih =>
    rcases p with ⟨a, b⟩
    rw [List.filter_cons]
    by_cases hp : a = k
    · rw [if_neg (by simp [hp])]
      exact ih
    · rw [if_pos (by simpa using hp)]
      have hne : (k == a) = false := by simp [Ne.symm hp]
      simp only [List.lookup, hne, ih]

/-! ## Claim theorems: audit log -/

/-- C1 counterexample: the claim says a malformed middle line is skipped and
the surrounding entries are still returned, but on the log
`[entry 0, malformed, entry 1]` read with count 3 the code returns the empty
list (the parse error aborts the whole read), not `[0, 1]`. -/
theorem C1_counterexample :
    get_recent_audit_entries ([some 0, none, some 1] : List (Option Nat)) 3 = []
    ∧ ([] : List Nat) ≠ [0, 1] := by
  constructor
  · rfl
  · decide

/-- C1 (amended): a malformed line inside the selected window makes
`get_recent_audit_entries` return the empty list — the per-line parse error
aborts the whole read rather than being skipped, so entries before and after
the corrupt line are not returned. -/
theorem C1_amended {α : Type} (lines : List (Option α)) (count : Int)
    (h : none ∈ audit_window lines count) :
    get_recent_audit_entries lines count = [] := by
  unfold get_recent_audit_entries
  rw [seqOptions_of_none_mem _ h]

/-- C1 witness: a concrete log with a malformed middle line, whose whole read
comes back empty. -/
theorem C1_witness :
    none ∈ audit_window ([some 1, none, some 2] : List (Option Nat)) 3
    ∧ get_recent_audit_entries ([some 1, none, some 2] : List (Option Nat)) 3 = [] :=
  ⟨by decide, C1_amended [some 1, none, some 2] 3 (by decide)⟩

/-- C6 counterexample: with one well-formed entry and count 0 the code returns
that entry (the slice `lines[-0:]` selects all lines), whereas the claim
(quantified over every count, so also at n = 0 < N = 1) asks for exactly the
last zero entries, i.e. the empty list. -/
theorem C6_counterexample :
    get_recent_audit_entries ([some 0] : List (Option Nat)) 0 = [0]
    ∧ ([0] : List Nat) ≠ [] := by
  constructor
  · rfl
  · decide

/-- C6 (amended): for a log of N well-formed entries,
`get_recent_audit_entries` returns the last k entries in log order when the
count is k with 1 ≤ k < N (the count-zero case is excluded: there the slice
selects the whole log, see C10), all N entries when the count exceeds N, and
the empty sequence on an empty log. -/
theorem C6_amended {α : Type} (entries : List α) (k : Nat) (n m : Int)
    (hk1 : 1 ≤ k) (hk2 : k < entries.length) (hn : (entries.length : Int) < n) :
    get_recent_audit_entries (entries.map some) (k : Int)
        = entries.drop (entries.length - k)
    ∧ (get_recent_audit_entries (entries.map some) (k : Int)).length = k
    ∧ get_recent_audit_entries (entries.map some) n = entries
    ∧ get_recent_audit_entries ([] : List (Option α)) m = [] := by
  have hwin : audit_window (entries.map some) (k : Int)
      = (entries.drop (entries.length - k)).map some := by
    unfold audit_window
    rw [if_pos (by simp; omega), pySliceFrom_neg _ k hk1]
    simp [List.map_drop]
  have h1 : get_recent_audit_entries (entries.map some) (k : Int)
      = entries.drop (entries.length - k) := by
    unfold get_recent_audit_entries
    rw [hwin, seqOptions_map_some]
  refine ⟨h1, ?_, ?_, ?_⟩
  · rw [h1, List.length_drop]
    omega
  · unfold get_recent_audit_entries audit_window
    rw [if_neg (by simp; omega), seqOptions_map_some]
  · have hw : audit_window ([] : List (Option α)) m = [] := by
      simp [audit_window, pySliceFrom]
    unfold get_recent_audit_entries
    rw [hw]
    rfl

/-- C6 witness: three entries, read with count 2 (last two in order), with
count 5 (all three), and the empty log. -/
theorem C6_witness :
    1 ≤ 2 ∧ 2 < ([10, 20, 30] : List Nat).length
    ∧ (([10, 20, 30] : List Nat).length : Int) < 5
    ∧ get_recent_audit_entries (([10, 20, 30] : List Nat).map some) (2 : Nat)
        = ([10, 20, 30] : List Nat).drop (([10, 20, 30] : List Nat).length - 2)
    ∧ (get_recent_audit_entries (([10, 20, 30] : List Nat).map some) (2 : Nat)).length = 2
    ∧ get_recent_audit_entries (([10, 20, 30] : List Nat).map some) 5 = [10, 20, 30]
    ∧ get_recent_audit_entries ([] : List (Option Nat)) 7 = [] := by
  refine ⟨by decide, by decide, by decide, ?_⟩
  exact C6_amended [10, 20, 30] 2 5 7 (by decide) (by decide) (by decide)

/-- C10: reading with count 0 on a non-empty, well-formed log returns every
entry of the log (the slice `lines[-0:]` selects all lines), not the empty
sequence. -/
theorem C10_zero_count {α : Type} (entries : List α) (h : entries ≠ []) :
    get_recent_audit_entries (entries.map some) 0 = entries
    ∧ get_recent_audit_entries (entries.map some) 0 ≠ [] := by
  have h0 : get_recent_audit_entries (entries.map some) 0 = entries := by
    unfold get_recent_audit_entries audit_window pySliceFrom
    rw [if_pos (by omega), if_pos (by omega)]
    have hz : ((-0 : Int)).toNat = 0 := by decide
    rw [hz]
    simp only [List.drop_zero]
    rw [seqOptions_map_some]
  refine ⟨h0, ?_⟩
  rw [h0]
  exact h

/-- C10 witness: a concrete three-entry log read with count 0. -/
theorem C10_witness :
    ([1, 2, 3] : List Nat) ≠ []
    ∧ get_recent_audit_entries (([1, 2, 3] : List Nat).map some) 0 = [1, 2, 3]
    ∧ get_recent_audit_entries (([1, 2, 3] : List Nat).map some) 0 ≠ [] :=
  ⟨by decide, C10_zero_count [1, 2, 3] (by decide)⟩

/-! ## Claim theorems: session store -/

/-- C4: with sessions enabled, a lookup strictly after `last_active + expiry`
returns none and deletes the session from the store; a lookup strictly before
that instant returns the stored token and leaves the store unchanged; a lookup
for a user with no session returns none and changes nothing. -/
theorem C4_session_expiry (D now1 now2 now3 : Int)
    (st1 st2 st3 : SessionMap) (uid : Int) (s1 s2 : SessionData)
    (h1 : st1.lookup uid = some s1) (h1e : now1 > s1.last_active + D)
    (h2 : st2.lookup uid = some s2) (h2a : now2 < s2.last_active + D)
    (h3 : st3.lookup uid = none) :
    ((get_active_session true D now1 st1 uid).1 = none
      ∧ ((get_active_session true D now1 st1 uid).2.lookup uid = none))
    ∧ (get_active_session true D now2 st2 uid).1 = some s2.session_id
    ∧ (get_active_session true D now2 st2 uid).2 = st2
    ∧ get_active_session true D now3 st3 uid = (none, st3) := by
  refine ⟨⟨?_, ?_⟩, ?_, ?_, ?_⟩
  · unfold get_active_session
    simp only [h1]
    rw [if_neg (by decide), if_pos h1e]
  · unfold get_active_session
    simp only [h1]
    rw [if_neg (by decide), if_pos h1e]
    exact lookup_filter_ne st1 uid
  · unfold get_active_session
    simp only [h2]
    rw [if_neg (by decide), if_neg (by omega)]
  · unfold get_active_session
    simp only [h2]
    rw [if_neg (by decide), if_neg (by omega)]
  · unfold get_active_session
    simp only [h3]
    rw [if_neg (by decide)]

/-- C4 witness: expiry 10; a session last active at 0 looked up at 11 is
expired and removed, one looked up at 5 yields its token, and an empty store
yields none. -/
theorem C4_witness :
    (([(1, SessionData.mk "s1" 0)] : SessionMap).lookup 1 = some (SessionData.mk "s1" 0)
      ∧ (11 : Int) > 0 + 10)
    ∧ ((get_active_session true 10 11 [(1, SessionData.mk "s1" 0)] 1).1 = none
      ∧ (get_active_session true 10 11 [(1, SessionData.mk "s1" 0)] 1).2.lookup 1 = none)
    ∧ (get_active_session true 10 5 [(1, SessionData.mk "s2" 0)] 1).1 = some "s2"
    ∧ (get_active_session true 10 5 [(1, SessionData.mk "s2" 0)] 1).2
        = [(1, SessionData.mk "s2" 0)]
    ∧ get_active_session true 10 0 ([] : SessionMap) 1 = (none, []) :=
  ⟨⟨by decide, by decide⟩,
    C4_session_expiry 10 11 5 0 [(1, SessionData.mk "s1" 0)] [(1, SessionData.mk "s2" 0)] []
      1 (SessionData.mk "s1" 0) (SessionData.mk "s2" 0)
      (by decide) (by decide) (by decide) (by decide) (by decide)⟩

/-! ## Claim theorems: sync orchestrator -/

/-- C2: whenever the git-pull fallback runs and the pull invocation raises no
exception, `sync_repo` returns true even on a nonzero exit code, and the pull
warning is surfaced exactly when the exit code is nonzero and stdout lacks the
up-to-date marker; if the fallback invocation raises, the error is surfaced
and `sync_repo` returns false. -/
theorem C2_fallback (scriptOk scriptOk2 : Bool) (script script2 : RunOutcome)
    (rc : Int) (out err e : String)
    (h1 : (sync_repo scriptOk script (RunOutcome.ok rc out err)).pullInvoked = true)
    (h2 : (sync_repo scriptOk2 script2 (RunOutcome.exn e)).pullInvoked = true) :
    (sync_repo scriptOk script (RunOutcome.ok rc out err)).succeeded = true
    ∧ ((sync_repo scriptOk script (RunOutcome.ok rc out err)).warnings.any isPullWarning = true
        ↔ (rc ≠ 0 ∧ containsSub upToDateMarker out.toList = false))
    ∧ (sync_repo scriptOk2 script2 (RunOutcome.exn e)).succeeded = false
    ∧ (sync_repo scriptOk2 script2 (RunOutcome.exn e)).warnings.any isGitError = true := by
  have gok : ∀ (ws : List Warning), ws.any isPullWarning = false →
      (git_pull_fallback ws (RunOutcome.ok rc out err)).succeeded = true
      ∧ ((git_pull_fallback ws (RunOutcome.ok rc out err)).warnings.any isPullWarning = true
          ↔ (rc ≠ 0 ∧ containsSub upToDateMarker out.toList = false)) := by
    intro ws hws
    by_cases hc : rc ≠ 0 ∧ containsSub upToDateMarker out.toList = false
    · refine ⟨?_, ?_⟩
      · simp only [git_pull_fallback]
        rw [if_pos hc]
      · simp only [git_pull_fallback]
        rw [if_pos hc]
        have hc2 : containsSub upToDateMarker out.data = false := hc.2
        simp [List.any_append, hws, isPullWarning, hc.1, hc2]
    · refine ⟨?_, ?_⟩
      · simp only [git_pull_fallback]
        rw [if_neg hc]
      · simp only [git_pull_fallback]
        rw [if_neg hc]
        simp only [hws]
        constructor
        · intro hfalse
          cases hfalse
        · intro hcc
          exact absurd hcc hc
  have gexn : ∀ (ws : List Warning),
      (git_pull_fallback ws (RunOutcome.exn e)).succeeded = false
      ∧ (git_pull_fallback ws (RunOutcome.exn e)).warnings.any isGitError = true := by
    intro ws
    unfold git_pull_fallback
    refine ⟨rfl, ?_⟩
    simp [List.any_append, isGitError]
  have hA : (sync_repo scriptOk script (RunOutcome.ok rc out err)).succeeded = true
      ∧ ((sync_repo scriptOk script (RunOutcome.ok rc out err)).warnings.any isPullWarning = true
          ↔ (rc ≠ 0 ∧ containsSub upToDateMarker out.toList = false)) := by
    cases scriptOk with
    | false => exact gok [] rfl
    | true =>
      cases script with
      | ok rc' out' err' =>
        by_cases h0 : rc' = 0
        · exfalso
          have : (sync_repo true (RunOutcome.ok rc' out' err')
              (RunOutcome.ok rc out err)).pullInvoked = false := by
            simp [sync_repo, h0]
          rw [this] at h1
          cases h1
        · have hr : sync_repo true (RunOutcome.ok rc' out' err') (RunOutcome.ok rc out err)
              = git_pull_fallback
                  [Warning.scriptFail ((pyStripChars err'.toList).take 200).asString]
                  (RunOutcome.ok rc out err) := by
            simp [sync_repo, h0]
          rw [hr]
          exact gok _ rfl
      | timeout => exact gok [Warning.scriptTimeout] rfl
      | exn msg => exact gok [Warning.scriptError msg] rfl
  have hB : (sync_repo scriptOk2 script2 (RunOutcome.exn e)).succeeded = false
      ∧ (sync_repo scriptOk2 script2 (RunOutcome.exn e)).warnings.any isGitError = true := by
    cases scriptOk2 with
    | false => exact gexn []
    | true =>
      cases script2 with
      | ok rc' out' err' =>
        by_cases h0 : rc' = 0
        · exfalso
          have : (sync_repo true (RunOutcome.ok rc' out' err')
              (RunOutcome.exn e)).pullInvoked = false := by
            simp [sync_repo, h0]
          rw [this] at h2
          cases h2
        · have hr : sync_repo true (RunOutcome.ok rc' out' err') (RunOutcome.exn e)
              = git_pull_fallback
                  [Warning.scriptFail ((pyStripChars err'.toList).take 200).asString]
                  (RunOutcome.exn e) := by
            simp [sync_repo, h0]
          rw [hr]
          exact gexn _
      | timeout => exact gexn [Warning.scriptTimeout]
      | exn msg => exact gexn [Warning.scriptError msg]
  exact ⟨hA.1, hA.2, hB.1, hB.2⟩

/-- C2 witness: with no sync script, a pull that exits 1 with unrelated stdout
still yields true and surfaces the pull warning; a pull that raises yields
false with a git error surfaced. -/
theorem C2_witness :
    ((sync_repo false RunOutcome.timeout (RunOutcome.ok 1 "boom" "fatal")).pullInvoked = true
      ∧ (sync_repo false RunOutcome.timeout (RunOutcome.exn "oops")).pullInvoked = true)
    ∧ (sync_repo false RunOutcome.timeout (RunOutcome.ok 1 "boom" "fatal")).succeeded = true
    ∧ ((sync_repo false RunOutcome.timeout
          (RunOutcome.ok 1 "boom" "fatal")).warnings.any isPullWarning = true
        ↔ ((1 : Int) ≠ 0 ∧ containsSub upToDateMarker "boom".toList = false))
    ∧ (sync_repo false RunOutcome.timeout (RunOutcome.exn "oops")).succeeded = false
    ∧ (sync_repo false RunOutcome.timeout (RunOutcome.exn "oops")).warnings.any isGitError
        = true :=
  ⟨⟨by decide, by decide⟩,
    C2_fallback false false RunOutcome.timeout RunOutcome.timeout 1 "boom" "fatal" "oops"
      (by decide) (by decide)⟩

/-- C3: a present, executable sync script exiting 0 makes `sync_repo` return
true with no warnings and the fallback never invoked; with the script absent
or not executable the fallback is always invoked and the pull outcome alone
determines the returned boolean. -/
theorem C3_script_preferred (out err : String) (script2 pull pull2 : RunOutcome) :
    sync_repo true (RunOutcome.ok 0 out err) pull = SyncOutcome.mk true [] false
    ∧ (sync_repo false script2 pull2).pullInvoked = true
    ∧ (sync_repo false script2 pull2).succeeded = fallback_bool pull2 := by
  refine ⟨rfl, ?_, ?_⟩
  · show (git_pull_fallback [] pull2).pullInvoked = true
    cases pull2 with
    | ok rc o s =>
      by_cases hc : rc ≠ 0 ∧ containsSub upToDateMarker o.toList = false
      · simp only [git_pull_fallback]
        rw [if_pos hc]
      · simp only [git_pull_fallback]
        rw [if_neg hc]
    | timeout => rfl
    | exn m => rfl
  · show (git_pull_fallback [] pull2).succeeded = fallback_bool pull2
    cases pull2 with
    | ok rc o s =>
      by_cases hc : rc ≠ 0 ∧ containsSub upToDateMarker o.toList = false
      · simp only [git_pull_fallback]
        rw [if_pos hc]
        rfl
      · simp only [git_pull_fallback]
        rw [if_neg hc]
        rfl
    | timeout => rfl
    | exn m => rfl
/-! ## Claim theorems: message tracker sweep -/

/-- C5: in one retention sweep, a tracked message strictly older than the
cutoff has the deletion capability invoked exactly once for its key and is
removed from tracking, no matter what the capability reports (the remaining
map is the same for every deleter); a message not older than the cutoff stays
tracked unchanged and triggers no deletion call. -/
theorem C5_retention_sweep (retention now : Int) (deleter d1 d2 : Int × Int → Bool)
    (tracked : List ((Int × Int) × Int)) (key1 key2 : Int × Int) (ts1 ts2 : Int)
    (hnodup : (tracked.map fun p => p.1).Nodup)
    (hmem1 : (key1, ts1) ∈ tracked) (hold : ts1 < now - retention)
    (hmem2 : (key2, ts2) ∈ tracked) (hfresh : ¬ ts2 < now - retention) :
    countOcc key1 ((delete_old_messages_sweep retention now deleter tracked).2.map fun c => c.1) = 1
    ∧ key1 ∉ ((delete_old_messages_sweep retention now deleter tracked).1.map fun p => p.1)
    ∧ (key2, ts2) ∈ (delete_old_messages_sweep retention now deleter tracked).1
    ∧ countOcc key2 ((delete_old_messages_sweep retention now deleter tracked).2.map fun c => c.1) = 0
    ∧ (delete_old_messages_sweep retention now d1 tracked).1
        = (delete_old_messages_sweep retention now d2 tracked).1 := by
  have hinj : ∀ p ∈ tracked, ∀ q ∈ tracked, p.1 = q.1 → p = q := by
    intro p hp q hq hpq
    exact List.inj_on_of_nodup_map hnodup hp hq hpq
  have hcallkeys : (delete_old_messages_sweep retention now deleter tracked).2.map (fun c => c.1)
      = (tracked.filter fun p => decide (p.2 < now - retention)).map fun p => p.1 := by
    simp [delete_old_messages_sweep]
  have hrem : ∀ x : (Int × Int) × Int,
      x ∈ (delete_old_messages_sweep retention now deleter tracked).1
        ↔ x ∈ tracked
          ∧ x.1 ∉ ((tracked.filter fun q => decide (q.2 < now - retention)).map fun q => q.1) := by
    intro x
    exact mem_sweep_foldl _ tracked x
  have hkey1mem :
      key1 ∈ ((tracked.filter fun p => decide (p.2 < now - retention)).map fun p => p.1) :=
    List.mem_map.mpr ⟨(key1, ts1), List.mem_filter.mpr ⟨hmem1, by simpa using hold⟩, rfl⟩
  have hkey2notmem :
      key2 ∉ ((tracked.filter fun p => decide (p.2 < now - retention)).map fun p => p.1) := by
    intro hmem
    rcases List.mem_map.mp hmem with ⟨q, hqf, hq1⟩
    rcases List.mem_filter.mp hqf with ⟨hqt, hqc⟩
    have hq : q = (key2, ts2) := hinj q hqt (key2, ts2) hmem2 (by simpa using hq1)
    rw [hq] at hqc
    exact hfresh (by simpa using hqc)
  refine ⟨?_, ?_, ?_, ?_, ?_⟩
  · rw [hcallkeys]
    exact countOcc_filter_keys_eq_one _ tracked key1 ts1 hnodup hmem1 (by simpa using hold)
  · intro hmem
    rcases List.mem_map.mp hmem with ⟨p, hpr, hp1⟩
    have := ((hrem p).mp hpr).2
    rw [hp1] at this
    exact this hkey1mem
  · exact (hrem (key2, ts2)).mpr ⟨hmem2, hkey2notmem⟩
  · rw [hcallkeys]
    exact countOcc_eq_zero key2 _ hkey2notmem
  · rfl

/-- C5 witness: retention 24 at time 100 (cutoff 76); the message posted at 50
is swept with one deletion call even under a deleter that always fails, the
one posted at 90 is untouched, and the resulting map is the same whether the
deleter succeeds or fails. -/
theorem C5_witness :
    ((([((1, 1), 50), ((1, 2), 90)] : List ((Int × Int) × Int)).map fun p => p.1).Nodup
      ∧ (50 : Int) < 100 - 24 ∧ ¬ (90 : Int) < 100 - 24)
    ∧ countOcc ((1, 1) : Int × Int) ((delete_old_messages_sweep 24 100 (fun _ => false)
          [((1, 1), 50), ((1, 2), 90)]).2.map fun c => c.1) = 1
    ∧ ((1, 1) : Int × Int) ∉ ((delete_old_messages_sweep 24 100 (fun _ => false)
          [((1, 1), 50), ((1, 2), 90)]).1.map fun p => p.1)
    ∧ (((1, 2), 90) : (Int × Int) × Int) ∈ (delete_old_messages_sweep 24 100 (fun _ => false)
          [((1, 1), 50), ((1, 2), 90)]).1
    ∧ countOcc ((1, 2) : Int × Int) ((delete_old_messages_sweep 24 100 (fun _ => false)
          [((1, 1), 50), ((1, 2), 90)]).2.map fun c => c.1) = 0
    ∧ (delete_old_messages_sweep 24 100 (fun _ => true) [((1, 1), 50), ((1, 2), 90)]).1
        = (delete_old_messages_sweep 24 100 (fun _ => false) [((1, 1), 50), ((1, 2), 90)]).1 :=
  ⟨⟨by decide, by decide, by decide⟩,
    C5_retention_sweep 24 100 (fun _ => false) (fun _ => true) (fun _ => false)
      [((1, 1), 50), ((1, 2), 90)] (1, 1) (1, 2) 50 90
      (by decide) (by decide) (by decide) (by decide) (by decide)⟩

/-! ## Claim theorems: configuration parsing -/

theorem pyLowerChar_letter_facts (c x : Char) (h : pyLowerChar c = x)
    (hx : 97 ≤ x.toNat ∧ x.toNat ≤ 122) :
    pyIsSpace c = false ∧ pyIsDigit c = false ∧ c ≠ '-' ∧ c ≠ '+' := by
  by_cases hc : 65 ≤ c.toNat ∧ c.toNat ≤ 90
  · refine ⟨?_, ?_, ?_, ?_⟩
    · by_contra hsp
      rw [Bool.not_eq_false] at hsp
      have hd : c = ' ' ∨ c = '\t' ∨ c = '\n' ∨ c = '\r' ∨ c = '\x0b' ∨ c = '\x0c' := by
        simpa [pyIsSpace] using hsp
      rcases hd with h1 | h1 | h1 | h1 | h1 | h1 <;> (subst h1; revert hc; decide)
    · by_contra hdg
      rw [Bool.not_eq_false] at hdg
      have hd : 48 ≤ c.toNat ∧ c.toNat ≤ 57 := by simpa [pyIsDigit] using hdg
      omega
    · intro he
      subst he
      revert hc
      decide
    · intro he
      subst he
      revert hc
      decide
  · have hcx : c = x := by simpa [pyLowerChar, hc] using h
    subst hcx
    refine ⟨?_, ?_, ?_, ?_⟩
    · by_contra hsp
      rw [Bool.not_eq_false] at hsp
      have hd : c = ' ' ∨ c = '\t' ∨ c = '\n' ∨ c = '\r' ∨ c = '\x0b' ∨ c = '\x0c' := by
        simpa [pyIsSpace] using hsp
      rcases hd with h1 | h1 | h1 | h1 | h1 | h1 <;>
        (subst h1; exact absurd hx.1 (by decide))
    · by_contra hdg
      rw [Bool.not_eq_false] at hdg
      have hd : 48 ≤ c.toNat ∧ c.toNat ≤ 57 := by simpa [pyIsDigit] using hdg
      omega
    · intro he
      subst he
      exact absurd hx.1 (by decide)
    · intro he
      subst he
      exact absurd hx.1 (by decide)

theorem pyInt_none_of_lower_auto (raw : List Char) (h : pyLower raw = "auto".toList) :
    pyInt? raw = none := by
  have hauto : "auto".toList = ['a', 'u', 't', 'o'] := rfl
  rw [hauto] at h
  rcases raw with _ | ⟨c1, _ | ⟨c2, _ | ⟨c3, _ | ⟨c4, _ | ⟨c5, t⟩⟩⟩⟩⟩ <;>
    simp [pyLower] at h
  obtain ⟨h1, h2, h3, h4⟩ := h
  have f1 := pyLowerChar_letter_facts c1 'a' h1 (by decide)
  have f4 := pyLowerChar_letter_facts c4 'o' h4 (by decide)
  have hs : pyStripSpace [c1, c2, c3, c4] = [c1, c2, c3, c4] := by
    simp [pyStripSpace, List.dropWhile_cons, f1.1, f4.1]
  unfold pyInt?
  rw [hs]
  simp only [pyIntCore]
  rw [if_neg f1.2.2.1, if_neg f1.2.2.2]
  simp [digitsVal, digitsValAux, f1.2.1]

/-- C9: the configuration parse of the sync policy behaves exactly as the
spec describes it — the literal value auto selects eager mode, any other
value is parsed as an integer interval in minutes, and a value that fails
integer parsing silently defaults to eager mode with no interval set.  The
lowercasing in the code makes no observable difference, because any value
whose lowercase form is the auto literal fails integer parsing anyway. -/
theorem C9_sync_mode (raw : List Char) : parse_sync_mode raw = spec_sync_mode raw := by
  by_cases h : pyLower raw = "auto".toList
  · have hnone := pyInt_none_of_lower_auto raw h
    unfold parse_sync_mode spec_sync_mode
    rw [if_pos h]
    by_cases h2 : raw = "auto".toList
    · rw [if_pos h2]
    · rw [if_neg h2, hnone]
  · have h2 : raw ≠ "auto".toList := fun he => h (by rw [he]; decide)
    unfold parse_sync_mode spec_sync_mode
    rw [if_neg h, if_neg h2]

/-! ## Claim theorems: query pipeline -/

/-- C7 counterexample: with sessions disabled, the authorized query with the
exact text of the scenario has length 30, so the emitted QUERY audit entry
carries query_length 30, not the 31 the claim states. -/
theorem C7_counterexample :
    (handle_message_core false 1 0 [] 7 "What did I write last Tuesday?"
        (ToolRun.mk "You wrote about the hike." "" 0) none).audit.query_length = 30
    ∧ (30 : Nat) ≠ 31 := by
  constructor
  · rfl
  · decide

/-- C7 (amended): with sessions disabled, the scenario query produces a QUERY
audit entry with query_length 30 (the length of the query text), returns the
tool text unmodified with response_length 25 (well under the 3900 limit), and
leaves the session store untouched — the whole outcome is independent of the
stored sessions. -/
theorem C7_query_scenario (D now : Int) (st : SessionMap) (uid rc : Int)
    (errS : String) (parsed : Option ParsedJson) :
    handle_message_core false D now st uid "What did I write last Tuesday?"
        (ToolRun.mk "You wrote about the hike." errS rc) parsed
      = QueryOutcome.mk
          ["claude", "-p", "What did I write last Tuesday?", "--dangerously-skip-permissions"]
          "You wrote about the hike."
          (QueryAudit.mk "QUERY" "What did I write last Tuesday?" 30 25 "success" rc)
          st := by
  rfl

/-- C8: with sessions enabled, an output that parses with a nonempty session
token stores exactly that token for the user, and a later query strictly
inside the expiry window issues the resume command carrying it; an output
that fails to parse uses the raw text as the reply body, still audits a
successful QUERY (no error outcome), and performs no session update. -/
theorem C8_session_continuity (D now now2 : Int) (st st2 : SessionMap) (uid : Int)
    (q q2 q3 : String) (run run2 run3 : ToolRun) (parsed2 : Option ParsedJson)
    (tok body : String)
    (htok : tok ≠ "")
    (hexp : ¬ now2 > now + D)
    (hraw : run3.raw_output ≠ "")
    (hlen : ¬ run3.raw_output.length > 3900) :
    (handle_message_core true D now st uid q run
        (some (ParsedJson.mk (some tok) (some body)))).sessions.lookup uid
      = some (SessionData.mk tok now)
    ∧ (handle_message_core true D now2
        (handle_message_core true D now st uid q run
          (some (ParsedJson.mk (some tok) (some body)))).sessions uid q2 run2 parsed2).cmd
      = ["claude", "--resume", tok, q2, "--output-format", "json",
          "--dangerously-skip-permissions"]
    ∧ (handle_message_core true D now st2 uid q3 run3 none).output = run3.raw_output
    ∧ (handle_message_core true D now st2 uid q3 run3 none).audit.status = "success"
    ∧ (handle_message_core true D now st2 uid q3 run3 none).sessions
      = (get_active_session true D now st2 uid).2 := by
  have hsess : (handle_message_core true D now st uid q run
      (some (ParsedJson.mk (some tok) (some body)))).sessions
      = update_session (get_active_session true D now st uid).2 uid tok now := by
    simp [handle_message_core, htok]
  refine ⟨?_, ?_, ?_, ?_, ?_⟩
  · rw [hsess]
    simp [update_session, List.lookup]
  · rw [hsess]
    have hlook : (get_active_session true D now2
        (update_session (get_active_session true D now st uid).2 uid tok now) uid).1
        = some tok := by
      simp [get_active_session, update_session, List.lookup, hexp]
    simp [handle_message_core, build_claude_cmd, hlook]
  · show truncate_for_telegram
        (if run3.raw_output = ""
          then (if run3.stderr_output = "" then "Empty response from Claude."
            else run3.stderr_output)
          else run3.raw_output) = run3.raw_output
    rw [if_neg hraw]
    unfold truncate_for_telegram
    rw [if_neg hlen]
  · rfl
  · rfl

/-- C8 witness: token abc123 returned at time 0 with expiry 10 is stored and
resumed at time 5; a parse failure leaves the raw text, a successful audit,
and no stored session. -/
theorem C8_witness :
    ("abc123" ≠ "" ∧ ¬ (5 : Int) > 0 + 10
      ∧ (ToolRun.mk "plain text" "" 0).raw_output ≠ ""
      ∧ ¬ (ToolRun.mk "plain text" "" 0).raw_output.length > 3900)
    ∧ (handle_message_core true 10 0 [] 1 "first" (ToolRun.mk "ignored" "" 0)
        (some (ParsedJson.mk (some "abc123") (some "Done.")))).sessions.lookup 1
      = some (SessionData.mk "abc123" 0)
    ∧ (handle_message_core true 10 5
        (handle_message_core true 10 0 [] 1 "first" (ToolRun.mk "ignored" "" 0)
          (some (ParsedJson.mk (some "abc123") (some "Done.")))).sessions 1 "second"
        (ToolRun.mk "later" "" 0) none).cmd
      = ["claude", "--resume", "abc123", "second", "--output-format", "json",
          "--dangerously-skip-permissions"]
    ∧ (handle_message_core true 10 0 [] 1 "third" (ToolRun.mk "plain text" "" 0) none).output
      = (ToolRun.mk "plain text" "" 0).raw_output
    ∧ (handle_message_core true 10 0 [] 1 "third"
        (ToolRun.mk "plain text" "" 0) none).audit.status = "success"
    ∧ (handle_message_core true 10 0 [] 1 "third" (ToolRun.mk "plain text" "" 0) none).sessions
      = (get_active_session true 10 0 [] 1).2 :=
  ⟨⟨by decide, by decide, by decide, by decide⟩,
    C8_session_continuity 10 0 5 [] [] 1 "first" "second" "third"
      (ToolRun.mk "ignored" "" 0) (ToolRun.mk "later" "" 0) (ToolRun.mk "plain text" "" 0)
      none "abc123" "Done."
      (by decide) (by decide) (by decide) (by decide)⟩
